import Mathlib

/-!
Verification of the Solow growth model with Cobb-Douglas production
(`quantecon/models/solow/cobb_douglas.py`).

The module under study consists of two functions over a model instance:

* `analytic_solution(cls, t, k0)` — the closed-form trajectory of capital
  per unit of effective labor, returned as a two-column array pairing each
  input time point with the capital value there;
* `analytic_steady_state(cls)` — the steady-state level of capital.

Python floating-point numbers are modelled as real numbers.  The two
fallible primitives of the Python code are modelled explicitly:

* a parameter lookup `cls.params[key]` raises `KeyError` when the key is
  absent — modelled by `lookupParam` returning `Except`;
* a float division `a / b` raises `ZeroDivisionError` when `b = 0` —
  modelled by `fdiv` returning `Except`.

Everything else in the two function bodies is total real arithmetic
(`np.exp` is the real exponential, `**` with real operands is the real
power function `Real.rpow`).
-/

namespace Solow

open Real Filter

/-- A model instance, as the two functions under study see it: a parameter
mapping (a name-to-value dictionary, modelled as an association list) and
the derived scalar `effective_depreciation_rate`.

Modelled from the spec: the base class `model.Model` that produces the
derived scalar is not part of the source under study; per the spec it
exposes, on any instance, the `params` mapping and
`effective_depreciation_rate = g + n + delta`.  The derived scalar is
therefore a plain field here, and the theorems that depend on its relation
to `g`, `n` and `delta` state that relation as a hypothesis. -/
structure CobbDouglasModel where
  params : List (String × ℝ)
  effective_depreciation_rate : ℝ

/-- Mapping lookup `cls.params[key]`: returns the stored value, or raises
`KeyError` when the key is absent from the mapping. -/
def lookupParam (cls : CobbDouglasModel) (key : String) : Except String ℝ :=
  match cls.params.lookup key with
  | some v => Except.ok v
  | none => Except.error ("KeyError: " ++ key)

/-- Python float division `a / b`: raises `ZeroDivisionError` when the
denominator is zero, otherwise returns the real quotient. -/
noncomputable def fdiv (a b : ℝ) : Except String ℝ :=
  if b = 0 then Except.error "ZeroDivisionError: float division by zero"
  else Except.ok (a / b)

/-- The scalar analytic-solution formula of lines 65-66 of the source,
applied elementwise to the time array by numpy broadcasting:

  `k(ti) = (sOverEdr * (1 - exp(-lmbda*ti)) + k0**(1-alpha) * exp(-lmbda*ti)) ** expo`

where `sOverEdr = s / effective_depreciation_rate` and
`expo = 1 / (1 - alpha)` are the two scalar quotients the source computes
(each a Python float division, hence performed — and able to raise —
once, outside the elementwise map). -/
noncomputable def solowKt (sOverEdr expo alpha lmbda k0 ti : ℝ) : ℝ :=
  (sOverEdr * (1 - Real.exp (-lmbda * ti)) +
    k0 ^ (1 - alpha) * Real.exp (-lmbda * ti)) ^ expo

/-- Lines 38-71 of the source, `analytic_solution(cls, t, k0)`:

```
s = cls.params['s']
alpha = cls.params['alpha']
lmbda = cls.effective_depreciation_rate * (1 - alpha)
k_t = ((s / cls.effective_depreciation_rate) * (1 - np.exp(-lmbda * t)) +
       k0**(1 - alpha) * np.exp(-lmbda * t))**(1 / (1 - alpha))
analytic_traj = np.hstack((t[:, np.newaxis], k_t[:, np.newaxis]))
return analytic_traj
```

The time array is a list of reals; the returned `(T, 2)` array is the list
pairing each time point with its capital value, in input order
(`np.hstack` of the two columns).  The scalar divisions
`s / cls.effective_depreciation_rate` and `1 / (1 - alpha)` are Python
float divisions and raise on a zero denominator; the elementwise
exponential/power arithmetic is total. -/
noncomputable def analytic_solution (cls : CobbDouglasModel) (t : List ℝ)
    (k0 : ℝ) : Except String (List (ℝ × ℝ)) := do
  let s ← lookupParam cls "s"
  let alpha ← lookupParam cls "alpha"
  let lmbda := cls.effective_depreciation_rate * (1 - alpha)
  let sOverEdr ← fdiv s cls.effective_depreciation_rate
  let expo ← fdiv 1 (1 - alpha)
  let k_t := t.map (fun ti => solowKt sOverEdr expo alpha lmbda k0 ti)
  return List.zip t k_t

/-- Lines 74-94 of the source, `analytic_steady_state(cls)`:

```
s = cls.params['s']
alpha = cls.params['alpha']
k_star = (s / cls.effective_depreciation_rate)**(1 / (1 - alpha))
return k_star
```

The two divisions are Python float divisions (base evaluated before the
exponent), the outer power is the real power function. -/
noncomputable def analytic_steady_state (cls : CobbDouglasModel) :
    Except String ℝ := do
  let s ← lookupParam cls "s"
  let alpha ← lookupParam cls "alpha"
  let base ← fdiv s cls.effective_depreciation_rate
  let expo ← fdiv 1 (1 - alpha)
  return base ^ expo

/-- The mutable state visible to a call of `analytic_solution`: the model
object and the input time array (the only objects the body could mutate).
Used by the state-threaded rendering of the function bodies below. -/
structure SolowCall where
  cls : CobbDouglasModel
  t : List ℝ
  k0 : ℝ

/-- Statement-by-statement state-threaded rendering of the body of
`analytic_solution`: every statement of the Python body only reads from
the model object and the time array (there is no assignment to `cls.*`
or `t`; `np.hstack` allocates a fresh array), so each step passes the
call state through unchanged and the final state is returned alongside
the result. -/
noncomputable def analytic_solution_run (st : SolowCall) :
    Except String (List (ℝ × ℝ)) × SolowCall :=
  match lookupParam st.cls "s" with
  | Except.error e => (Except.error e, st)
  | Except.ok s =>
    match lookupParam st.cls "alpha" with
    | Except.error e => (Except.error e, st)
    | Except.ok alpha =>
      let lmbda := st.cls.effective_depreciation_rate * (1 - alpha)
      match fdiv s st.cls.effective_depreciation_rate with
      | Except.error e => (Except.error e, st)
      | Except.ok sOverEdr =>
        match fdiv 1 (1 - alpha) with
        | Except.error e => (Except.error e, st)
        | Except.ok expo =>
          (Except.ok (List.zip st.t
            (st.t.map (fun ti => solowKt sOverEdr expo alpha lmbda st.k0 ti))),
           st)

/-- Statement-by-statement state-threaded rendering of the body of
`analytic_steady_state`: every statement only reads from the model
object, so each step passes it through unchanged and the final model
state is returned alongside the result. -/
noncomputable def analytic_steady_state_run (cls : CobbDouglasModel) :
    Except String ℝ × CobbDouglasModel :=
  match lookupParam cls "s" with
  | Except.error e => (Except.error e, cls)
  | Except.ok s =>
    match lookupParam cls "alpha" with
    | Except.error e => (Except.error e, cls)
    | Except.ok alpha =>
      match fdiv s cls.effective_depreciation_rate with
      | Except.error e => (Except.error e, cls)
      | Except.ok base =>
        match fdiv 1 (1 - alpha) with
        | Except.error e => (Except.error e, cls)
        | Except.ok expo => (Except.ok (base ^ expo), cls)

/-- The concrete model of the spec scenarios:
`params = {g: 0.02, n: 0.01, s: 0.2, alpha: 0.33, delta: 0.03}`, with the
derived `effective_depreciation_rate = g + n + delta`. -/
noncomputable def concreteModel : CobbDouglasModel :=
  ⟨[("g", 0.02), ("n", 0.01), ("s", 0.2), ("alpha", 0.33), ("delta", 0.03)],
   0.02 + 0.01 + 0.03⟩

/-- A model with `alpha = 1.0` (and `s` present), the degenerate scenario. -/
noncomputable def degenerateModel : CobbDouglasModel :=
  ⟨[("g", 0.02), ("n", 0.01), ("s", 0.2), ("alpha", 1), ("delta", 0.03)],
   0.02 + 0.01 + 0.03⟩

/-- A model whose parameter mapping is missing the key `s`. -/
noncomputable def missingSModel : CobbDouglasModel :=
  ⟨[("g", 0.02), ("n", 0.01), ("alpha", 0.33), ("delta", 0.03)],
   0.02 + 0.01 + 0.03⟩

/-- A second model agreeing with `concreteModel` on `params['s']`,
`params['alpha']` and `effective_depreciation_rate` but differing in all
other entries of the parameter mapping. -/
noncomputable def scrambledModel : CobbDouglasModel :=
  ⟨[("alpha", 0.33), ("s", 0.2), ("g", 99), ("other", 5)], 0.06⟩

theorem zip_self_map {α β : Type} (f : α → β) (t : List α) :
    List.zip t (t.map f) = t.map (fun x => (x, f x)) := by
  induction t with
  | nil => rfl
  | cons a l ih => rw [List.map_cons, List.zip_cons_cons, ih, List.map_cons]

theorem ok_bind {α β : Type} (a : α) (f : α → Except String β) :
    (Except.ok a >>= f) = f a := rfl

theorem error_bind {α β : Type} (e : String) (f : α → Except String β) :
    ((Except.error e : Except String α) >>= f) = Except.error e := rfl

theorem pure_eq_ok {α : Type} (a : α) : (pure a : Except String α) = Except.ok a := rfl

theorem lookupParam_ok {cls : CobbDouglasModel} {key : String} {v : ℝ}
    (h : cls.params.lookup key = some v) :
    lookupParam cls key = Except.ok v := by
  simp [lookupParam, h]

theorem lookupParam_err {cls : CobbDouglasModel} {key : String}
    (h : cls.params.lookup key = none) :
    lookupParam cls key = Except.error ("KeyError: " ++ key) := by
  simp [lookupParam, h]

theorem fdiv_ok {a b : ℝ} (h : b ≠ 0) : fdiv a b = Except.ok (a / b) := by
  simp [fdiv, h]

theorem analytic_solution_ok {cls : CobbDouglasModel} {sv av : ℝ}
    (hs : cls.params.lookup "s" = some sv)
    (ha : cls.params.lookup "alpha" = some av)
    (hedr : cls.effective_depreciation_rate ≠ 0) (hav : (1 : ℝ) - av ≠ 0)
    (t : List ℝ) (k0 : ℝ) :
    analytic_solution cls t k0 =
      Except.ok (t.map (fun ti =>
        (ti, solowKt (sv / cls.effective_depreciation_rate) (1 / (1 - av)) av
          (cls.effective_depreciation_rate * (1 - av)) k0 ti))) := by
  simp only [analytic_solution, lookupParam_ok hs, lookupParam_ok ha,
    fdiv_ok hedr, fdiv_ok hav, ok_bind, pure_eq_ok, zip_self_map]

theorem analytic_steady_state_ok {cls : CobbDouglasModel} {sv av : ℝ}
    (hs : cls.params.lookup "s" = some sv)
    (ha : cls.params.lookup "alpha" = some av)
    (hedr : cls.effective_depreciation_rate ≠ 0) (hav : (1 : ℝ) - av ≠ 0) :
    analytic_steady_state cls =
      Except.ok ((sv / cls.effective_depreciation_rate) ^ ((1 : ℝ) / (1 - av))) := by
  simp only [analytic_steady_state, lookupParam_ok hs, lookupParam_ok ha,
    fdiv_ok hedr, fdiv_ok hav, ok_bind, pure_eq_ok]

theorem analytic_solution_shape {cls : CobbDouglasModel} {t : List ℝ}
    {k0 : ℝ} {traj : List (ℝ × ℝ)}
    (h : analytic_solution cls t k0 = Except.ok traj) :
    ∃ f : ℝ → ℝ, traj = t.map (fun ti => (ti, f ti)) := by
  rw [analytic_solution] at h
  rcases hls : lookupParam cls "s" with e | sv <;> rw [hls] at h
  · rw [error_bind] at h; exact absurd h (by simp)
  rcases hla : lookupParam cls "alpha" with e | av <;> rw [hla] at h
  · rw [ok_bind, error_bind] at h; exact absurd h (by simp)
  rcases hd1 : fdiv sv cls.effective_depreciation_rate with e | sOverEdr <;>
    rw [ok_bind, ok_bind, hd1] at h
  · rw [error_bind] at h; exact absurd h (by simp)
  rcases hd2 : fdiv 1 (1 - av) with e | expo <;> rw [ok_bind, hd2] at h
  · rw [error_bind] at h; exact absurd h (by simp)
  rw [ok_bind, pure_eq_ok, zip_self_map] at h
  exact ⟨_, (Except.ok.injEq _ _ ▸ h).symm⟩

theorem concrete_edr : concreteModel.effective_depreciation_rate = 0.06 := by
  norm_num [concreteModel]

theorem traj_at_zero :
    analytic_solution concreteModel [0] 1 = Except.ok [((0 : ℝ), (1 : ℝ))] := by
  have h := @analytic_solution_ok concreteModel 0.2 0.33 rfl rfl
    (by rw [concrete_edr]; norm_num) (by norm_num) [0] 1
  rw [h]
  simp [solowKt, Real.exp_zero, Real.one_rpow]

theorem kstar_bounds :
    (6 : ℝ) < (0.2 / 0.06 : ℝ) ^ ((1 : ℝ) / (1 - 0.33)) ∧
      (0.2 / 0.06 : ℝ) ^ ((1 : ℝ) / (1 - 0.33)) < 6.1 := by
  have hb : (0.2 / 0.06 : ℝ) = 10 / 3 := by norm_num
  have he : ((1 : ℝ) / (1 - 0.33)) = 100 / 67 := by norm_num
  rw [hb, he]
  have hx : (0 : ℝ) < (10 / 3 : ℝ) ^ ((100 : ℝ) / 67) :=
    Real.rpow_pos_of_pos (by norm_num) _
  have key : ((10 / 3 : ℝ) ^ ((100 : ℝ) / 67)) ^ (67 : ℕ) =
      (10 / 3 : ℝ) ^ (100 : ℕ) := by
    rw [← Real.rpow_natCast ((10 / 3 : ℝ) ^ ((100 : ℝ) / 67)) 67,
      ← Real.rpow_mul (by norm_num : (0 : ℝ) ≤ 10 / 3),
      ← Real.rpow_natCast (10 / 3 : ℝ) 100]
    congr 1
    push_cast
    norm_num
  constructor
  · apply lt_of_pow_lt_pow_left₀ 67 (le_of_lt hx)
    rw [key]
    norm_num
  · apply lt_of_pow_lt_pow_left₀ 67 (by norm_num : (0 : ℝ) ≤ 6.1)
    rw [key]
    norm_num

theorem fdiv_zero (a : ℝ) {b : ℝ} (h : b = 0) :
    fdiv a b = Except.error "ZeroDivisionError: float division by zero" := by
  simp [fdiv, h]

/-- C4: for every input time sequence `t` (sorted or not), the output of
`analytic_solution` is a two-column array of pairs `(ti, k(ti))` with
exactly the same length and element order as `t`: the first column equals
the input time points element-wise and in the given order, with no sorting
or reordering performed. -/
theorem claim4_output_preserves_times (cls : CobbDouglasModel) (t : List ℝ)
    (k0 : ℝ) (traj : List (ℝ × ℝ))
    (h : analytic_solution cls t k0 = Except.ok traj) :
    traj.length = t.length ∧ traj.map Prod.fst = t := by
  obtain ⟨f, rfl⟩ := analytic_solution_shape h
  refine ⟨by simp, ?_⟩
  simp only [List.map_map]
  exact List.map_id' t

/-- Witness for C4 at the concrete model, `t = [0]`, `k0 = 1`. -/
theorem claim4_witness :
    ([((0 : ℝ), (1 : ℝ))].length = ([(0 : ℝ)]).length) ∧
      ([((0 : ℝ), (1 : ℝ))].map Prod.fst = [(0 : ℝ)]) :=
  claim4_output_preserves_times concreteModel [0] 1 [((0 : ℝ), (1 : ℝ))]
    traj_at_zero

/-- C5: for the concrete parameters
`{g: 0.02, n: 0.01, s: 0.2, alpha: 0.33, delta: 0.03}`, time sequence
`t = [0]` and `k0 = 1.0`, `analytic_solution` returns exactly
`[(0, 1.0)]`: at `t = 0` the exponential terms equal `1` and the
closed-form formula reduces exactly to `k0`. -/
theorem claim5_trajectory_at_zero :
    analytic_solution concreteModel [0] 1 = Except.ok [((0 : ℝ), (1 : ℝ))] :=
  traj_at_zero

/-- C6: with `alpha = 1.0` (and also with `effective_depreciation_rate = 0`),
`analytic_steady_state` produces the generic division-by-zero failure of the
underlying arithmetic — never a normal value — rather than a
domain-specific rejection. -/
theorem claim6_degenerate_zero_division (cls : CobbDouglasModel) (sv av : ℝ)
    (hs : cls.params.lookup "s" = some sv)
    (ha : cls.params.lookup "alpha" = some av) :
    (av = 1 →
      analytic_steady_state cls =
        Except.error "ZeroDivisionError: float division by zero" ∧
      ∀ y : ℝ, analytic_steady_state cls ≠ Except.ok y) ∧
    (cls.effective_depreciation_rate = 0 →
      analytic_steady_state cls =
        Except.error "ZeroDivisionError: float division by zero" ∧
      ∀ y : ℝ, analytic_steady_state cls ≠ Except.ok y) := by
  constructor
  · intro hav
    have hmain : analytic_steady_state cls =
        Except.error "ZeroDivisionError: float division by zero" := by
      rw [analytic_steady_state, lookupParam_ok hs, lookupParam_ok ha, ok_bind,
        ok_bind]
      by_cases hedr : cls.effective_depreciation_rate = 0
      · rw [fdiv_zero sv hedr, error_bind]
      · rw [fdiv_ok hedr, ok_bind, hav,
          fdiv_zero 1 (by norm_num : (1 : ℝ) - 1 = 0), error_bind]
    exact ⟨hmain, fun y hy => by rw [hmain] at hy; exact absurd hy (by simp)⟩
  · intro hedr
    have hmain : analytic_steady_state cls =
        Except.error "ZeroDivisionError: float division by zero" := by
      rw [analytic_steady_state, lookupParam_ok hs, lookupParam_ok ha, ok_bind,
        ok_bind, fdiv_zero sv hedr, error_bind]
    exact ⟨hmain, fun y hy => by rw [hmain] at hy; exact absurd hy (by simp)⟩

/-- Witness for C6 at the degenerate model with `alpha = 1.0`. -/
theorem claim6_witness :
    ((1 : ℝ) = 1 →
      analytic_steady_state degenerateModel =
        Except.error "ZeroDivisionError: float division by zero" ∧
      ∀ y : ℝ, analytic_steady_state degenerateModel ≠ Except.ok y) ∧
    (degenerateModel.effective_depreciation_rate = 0 →
      analytic_steady_state degenerateModel =
        Except.error "ZeroDivisionError: float division by zero" ∧
      ∀ y : ℝ, analytic_steady_state degenerateModel ≠ Except.ok y) :=
  claim6_degenerate_zero_division degenerateModel 0.2 1 rfl rfl

/-- C8: for every model whose parameter mapping is missing the key `s` or
the key `alpha`, both `analytic_solution` and `analytic_steady_state` fail
with the mapping's own missing-key lookup failure (naming the absent key),
not a domain-specific error kind, and produce no partial result (the
`Except` result is an error, carrying no other data). -/
theorem claim8_missing_key_error (cls : CobbDouglasModel) (t : List ℝ)
    (k0 : ℝ)
    (h : cls.params.lookup "s" = none ∨ cls.params.lookup "alpha" = none) :
    ∃ key, (key = "s" ∨ key = "alpha") ∧ cls.params.lookup key = none ∧
      analytic_solution cls t k0 = Except.error ("KeyError: " ++ key) ∧
      analytic_steady_state cls = Except.error ("KeyError: " ++ key) := by
  by_cases hsn : cls.params.lookup "s" = none
  · refine ⟨"s", Or.inl rfl, hsn, ?_, ?_⟩
    · rw [analytic_solution, lookupParam_err hsn, error_bind]
    · rw [analytic_steady_state, lookupParam_err hsn, error_bind]
  · have han : cls.params.lookup "alpha" = none := h.resolve_left hsn
    obtain ⟨sv, hsv⟩ : ∃ v, cls.params.lookup "s" = some v :=
      Option.ne_none_iff_exists'.mp hsn
    refine ⟨"alpha", Or.inr rfl, han, ?_, ?_⟩
    · rw [analytic_solution, lookupParam_ok hsv, ok_bind, lookupParam_err han,
        error_bind]
    · rw [analytic_steady_state, lookupParam_ok hsv, ok_bind,
        lookupParam_err han, error_bind]

/-- Witness for C8 at a model missing the key `s`. -/
theorem claim8_witness :
    ∃ key, (key = "s" ∨ key = "alpha") ∧
      missingSModel.params.lookup key = none ∧
      analytic_solution missingSModel [0] 1 =
        Except.error ("KeyError: " ++ key) ∧
      analytic_steady_state missingSModel =
        Except.error ("KeyError: " ++ key) :=
  claim8_missing_key_error missingSModel [0] 1 (Or.inl rfl)

/-- C9: `analytic_solution` and `analytic_steady_state` are pure.  In the
statement-by-statement state-threaded rendering of their bodies, the call
state (the model object, its parameter mapping and derived rate, and the
input time array) after the call equals the state before it, and the
result is the one determined solely by the inputs (it equals the value of
the plain function of the inputs). -/
theorem claim9_purity (st : SolowCall) :
    (analytic_solution_run st).2 = st ∧
    (analytic_solution_run st).1 = analytic_solution st.cls st.t st.k0 ∧
    (analytic_steady_state_run st.cls).2 = st.cls ∧
    (analytic_steady_state_run st.cls).1 = analytic_steady_state st.cls := by
  rcases hls : lookupParam st.cls "s" with e | sv
  · simp [analytic_solution_run, analytic_steady_state_run, analytic_solution,
      analytic_steady_state, hls, error_bind]
  rcases hla : lookupParam st.cls "alpha" with e | av
  · simp [analytic_solution_run, analytic_steady_state_run, analytic_solution,
      analytic_steady_state, hls, hla, ok_bind, error_bind]
  rcases hd1 : fdiv sv st.cls.effective_depreciation_rate with e | q1
  · simp [analytic_solution_run, analytic_steady_state_run, analytic_solution,
      analytic_steady_state, hls, hla, hd1, ok_bind, error_bind]
  rcases hd2 : fdiv 1 (1 - av) with e | q2
  · simp [analytic_solution_run, analytic_steady_state_run, analytic_solution,
      analytic_steady_state, hls, hla, hd1, hd2, ok_bind, error_bind]
  simp [analytic_solution_run, analytic_steady_state_run, analytic_solution,
    analytic_steady_state, hls, hla, hd1, hd2, ok_bind, pure_eq_ok]

/-- Witness for C9 at a concrete call state. -/
theorem claim9_witness :
    (analytic_solution_run ⟨concreteModel, [0], 1⟩).2 =
      (⟨concreteModel, [0], 1⟩ : SolowCall) ∧
    (analytic_solution_run ⟨concreteModel, [0], 1⟩).1 =
      analytic_solution concreteModel [0] 1 ∧
    (analytic_steady_state_run concreteModel).2 = concreteModel ∧
    (analytic_steady_state_run concreteModel).1 =
      analytic_steady_state concreteModel :=
  claim9_purity ⟨concreteModel, [0], 1⟩

/-- C10: the outputs of `analytic_solution` and `analytic_steady_state`
depend only on `params['s']`, `params['alpha']` and the model's
`effective_depreciation_rate`: two model instances agreeing on these three
give identical results for every `t` and `k0`, regardless of any other
entries of the parameter mappings. -/
theorem claim10_depends_only_on_s_alpha_edr (m1 m2 : CobbDouglasModel)
    (t : List ℝ) (k0 : ℝ)
    (hs : m1.params.lookup "s" = m2.params.lookup "s")
    (ha : m1.params.lookup "alpha" = m2.params.lookup "alpha")
    (he : m1.effective_depreciation_rate = m2.effective_depreciation_rate) :
    analytic_solution m1 t k0 = analytic_solution m2 t k0 ∧
    analytic_steady_state m1 = analytic_steady_state m2 := by
  have hl1 : lookupParam m1 "s" = lookupParam m2 "s" := by
    simp only [lookupParam, hs]
  have hl2 : lookupParam m1 "alpha" = lookupParam m2 "alpha" := by
    simp only [lookupParam, ha]
  constructor
  · simp only [analytic_solution]
    rw [hl1, hl2, he]
  · simp only [analytic_steady_state]
    rw [hl1, hl2, he]

/-- Witness for C10: two concrete models agreeing on `s`, `alpha` and the
derived rate but with different `g`, `n`, `delta` and extra entries. -/
theorem claim10_witness :
    analytic_solution concreteModel [1] 2 = analytic_solution scrambledModel [1] 2 ∧
    analytic_steady_state concreteModel = analytic_steady_state scrambledModel :=
  claim10_depends_only_on_s_alpha_edr concreteModel scrambledModel [1] 2 rfl rfl
    (by norm_num [concreteModel, scrambledModel])

/-- C1: for every model whose params contain `s` and `alpha` and whose
`effective_depreciation_rate` is the derived scalar `g + n + delta` (with
the formula's divisions defined: the rate nonzero and `alpha ≠ 1`), every
time array `t` and every positive initial value `k0`, `analytic_solution`
computes for each element `ti` of `t` the capital value
`k(ti) = ((s/edr) * (1 - exp(-lmbda*ti)) + k0^(1-alpha) * exp(-lmbda*ti))^(1/(1-alpha))`
where `edr = g + n + delta` and `lmbda = edr * (1 - alpha)`. -/
theorem claim1_closed_form_trajectory (cls : CobbDouglasModel)
    (gv nv dv sv av : ℝ)
    (hg : cls.params.lookup "g" = some gv)
    (hn : cls.params.lookup "n" = some nv)
    (hd : cls.params.lookup "delta" = some dv)
    (hs : cls.params.lookup "s" = some sv)
    (ha : cls.params.lookup "alpha" = some av)
    (hedr : cls.effective_depreciation_rate = gv + nv + dv)
    (hedr0 : gv + nv + dv ≠ 0) (hav : av ≠ 1)
    (t : List ℝ) (k0 : ℝ) (hk0 : 0 < k0) :
    analytic_solution cls t k0 = Except.ok (t.map (fun ti =>
      (ti, ((sv / (gv + nv + dv)) *
          (1 - Real.exp (-((gv + nv + dv) * (1 - av)) * ti)) +
          k0 ^ (1 - av) * Real.exp (-((gv + nv + dv) * (1 - av)) * ti)) ^
        ((1 : ℝ) / (1 - av))))) := by
  have hav' : (1 : ℝ) - av ≠ 0 := sub_ne_zero.mpr (Ne.symm hav)
  rw [analytic_solution_ok hs ha (by rw [hedr]; exact hedr0) hav', hedr]
  simp only [solowKt]

/-- Witness for C1 at the concrete model with `t = [0, 1]`, `k0 = 1`. -/
theorem claim1_witness :
    analytic_solution concreteModel [0, 1] 1 = Except.ok ([0, 1].map (fun ti =>
      (ti, (((0.2 : ℝ) / ((0.02 : ℝ) + 0.01 + 0.03)) *
          (1 - Real.exp (-(((0.02 : ℝ) + 0.01 + 0.03) * (1 - 0.33)) * ti)) +
          (1 : ℝ) ^ ((1 : ℝ) - 0.33) *
            Real.exp (-(((0.02 : ℝ) + 0.01 + 0.03) * (1 - 0.33)) * ti)) ^
        ((1 : ℝ) / (1 - 0.33))))) :=
  claim1_closed_form_trajectory concreteModel 0.02 0.01 0.03 0.2 0.33
    rfl rfl rfl rfl rfl rfl (by norm_num) (by norm_num) [0, 1] 1 (by norm_num)

/-- Refutation of C2 as stated: at the spec's own concrete parameters the
steady state returned is `(0.2/0.06)^(1/(1-0.33))`, which exceeds `5.97`,
so it is not approximately `5.07` within any floating-point tolerance
(the gap is larger than `0.9`). -/
theorem claim2_counterexample :
    analytic_steady_state concreteModel =
      Except.ok ((0.2 / 0.06 : ℝ) ^ ((1 : ℝ) / (1 - 0.33))) ∧
    (0.9 : ℝ) < (0.2 / 0.06 : ℝ) ^ ((1 : ℝ) / (1 - 0.33)) - 5.07 := by
  constructor
  · have h := @analytic_steady_state_ok concreteModel 0.2 0.33 rfl rfl
      (by rw [concrete_edr]; norm_num) (by norm_num)
    rw [h, concrete_edr]
  · have h := kstar_bounds.1
    linarith

/-- C2 (amended): for every parameter set with `0 < alpha < 1`,
`effective_depreciation_rate > 0` and `s > 0`, `analytic_steady_state`
returns the (finite) positive value `(s/edr)^(1/(1-alpha))`; in
particular, for `s = 0.2`, `alpha = 0.33`, `edr = 0.06` the result lies
between `6` and `6.1` (approximately `6.03`). -/
theorem claim2_steady_state_value (cls : CobbDouglasModel) (sv av : ℝ)
    (hs : cls.params.lookup "s" = some sv)
    (ha : cls.params.lookup "alpha" = some av)
    (h0a : 0 < av) (h1a : av < 1)
    (hedr : 0 < cls.effective_depreciation_rate) (hsv : 0 < sv) :
    analytic_steady_state cls =
      Except.ok ((sv / cls.effective_depreciation_rate) ^ ((1 : ℝ) / (1 - av))) ∧
    0 < (sv / cls.effective_depreciation_rate) ^ ((1 : ℝ) / (1 - av)) ∧
    (sv = 0.2 → av = 0.33 → cls.effective_depreciation_rate = 0.06 →
      6 < (sv / cls.effective_depreciation_rate) ^ ((1 : ℝ) / (1 - av)) ∧
      (sv / cls.effective_depreciation_rate) ^ ((1 : ℝ) / (1 - av)) < 6.1) := by
  have hav : (1 : ℝ) - av ≠ 0 := sub_ne_zero.mpr (ne_of_gt h1a)
  refine ⟨analytic_steady_state_ok hs ha (ne_of_gt hedr) hav, ?_, ?_⟩
  · exact Real.rpow_pos_of_pos (div_pos hsv hedr) _
  · rintro rfl rfl h06
    rw [h06]
    exact kstar_bounds

/-- Witness for C2 (amended) at the concrete model. -/
theorem claim2_witness :
    analytic_steady_state concreteModel =
      Except.ok (((0.2 : ℝ) / concreteModel.effective_depreciation_rate) ^
        ((1 : ℝ) / (1 - 0.33))) ∧
    0 < ((0.2 : ℝ) / concreteModel.effective_depreciation_rate) ^
        ((1 : ℝ) / (1 - 0.33)) ∧
    ((0.2 : ℝ) = 0.2 → (0.33 : ℝ) = 0.33 →
      concreteModel.effective_depreciation_rate = 0.06 →
      6 < ((0.2 : ℝ) / concreteModel.effective_depreciation_rate) ^
          ((1 : ℝ) / (1 - 0.33)) ∧
      ((0.2 : ℝ) / concreteModel.effective_depreciation_rate) ^
          ((1 : ℝ) / (1 - 0.33)) < 6.1) :=
  claim2_steady_state_value concreteModel 0.2 0.33 rfl rfl (by norm_num)
    (by norm_num) (by rw [concrete_edr]; norm_num) (by norm_num)

/-- C3: for every valid parameter set (`0 < alpha < 1`,
`effective_depreciation_rate > 0`, `s > 0`) and every time array `t`, if
`k0` equals the value returned by `analytic_steady_state` of the same
model, then `analytic_solution` returns the capital value `k0` at every
time point: the steady state is a fixed point of the trajectory
computation. -/
theorem claim3_steady_state_fixed_point (cls : CobbDouglasModel)
    (sv av kstar : ℝ)
    (hs : cls.params.lookup "s" = some sv)
    (ha : cls.params.lookup "alpha" = some av)
    (h0a : 0 < av) (h1a : av < 1)
    (hedr : 0 < cls.effective_depreciation_rate) (hsv : 0 < sv)
    (hks : analytic_steady_state cls = Except.ok kstar) (t : List ℝ) :
    analytic_solution cls t kstar = Except.ok (t.map (fun ti => (ti, kstar))) := by
  have hav : (1 : ℝ) - av ≠ 0 := sub_ne_zero.mpr (ne_of_gt h1a)
  have hedr' := ne_of_gt hedr
  rw [analytic_steady_state_ok hs ha hedr' hav] at hks
  have hkval : kstar =
      (sv / cls.effective_depreciation_rate) ^ ((1 : ℝ) / (1 - av)) :=
    ((Except.ok.injEq _ _).mp hks).symm
  have hApos : 0 < sv / cls.effective_depreciation_rate := div_pos hsv hedr
  have hB : kstar ^ ((1 : ℝ) - av) = sv / cls.effective_depreciation_rate := by
    rw [hkval, ← Real.rpow_mul (le_of_lt hApos), one_div_mul_cancel hav,
      Real.rpow_one]
  have hpt : ∀ ti : ℝ,
      solowKt (sv / cls.effective_depreciation_rate) (1 / (1 - av)) av
        (cls.effective_depreciation_rate * (1 - av)) kstar ti = kstar := by
    intro ti
    rw [solowKt, hB]
    have hsum : sv / cls.effective_depreciation_rate *
          (1 - Real.exp (-(cls.effective_depreciation_rate * (1 - av)) * ti)) +
        sv / cls.effective_depreciation_rate *
          Real.exp (-(cls.effective_depreciation_rate * (1 - av)) * ti) =
        sv / cls.effective_depreciation_rate := by ring
    rw [hsum, ← hkval]
  rw [analytic_solution_ok hs ha hedr' hav]
  simp only [hpt]

/-- Witness for C3 at the concrete model with `t = [1]`. -/
theorem claim3_witness :
    analytic_solution concreteModel [1]
        (((0.2 : ℝ) / concreteModel.effective_depreciation_rate) ^
          ((1 : ℝ) / (1 - 0.33))) =
      Except.ok ([1].map (fun ti =>
        (ti, ((0.2 : ℝ) / concreteModel.effective_depreciation_rate) ^
          ((1 : ℝ) / (1 - 0.33))))) :=
  claim3_steady_state_fixed_point concreteModel 0.2 0.33
    (((0.2 : ℝ) / concreteModel.effective_depreciation_rate) ^
      ((1 : ℝ) / (1 - 0.33)))
    rfl rfl (by norm_num) (by norm_num) (by rw [concrete_edr]; norm_num)
    (by norm_num)
    (@analytic_steady_state_ok concreteModel 0.2 0.33 rfl rfl
      (by rw [concrete_edr]; norm_num) (by norm_num)) [1]

/-- C7: for every valid parameter set with
`lmbda = effective_depreciation_rate * (1 - alpha) > 0` and every positive
`k0`, the per-time-point capital value computed by `analytic_solution`
tends, as the time point tends to infinity, to the value returned by
`analytic_steady_state` of the same model, regardless of `k0`. -/
theorem claim7_convergence_to_steady_state (cls : CobbDouglasModel)
    (sv av : ℝ)
    (hs : cls.params.lookup "s" = some sv)
    (ha : cls.params.lookup "alpha" = some av)
    (h0a : 0 < av) (h1a : av < 1)
    (hedr : 0 < cls.effective_depreciation_rate) (hsv : 0 < sv)
    (k0 : ℝ) (hk0 : 0 < k0) :
    Tendsto (fun ti =>
        solowKt (sv / cls.effective_depreciation_rate) (1 / (1 - av)) av
          (cls.effective_depreciation_rate * (1 - av)) k0 ti) atTop
      (nhds ((sv / cls.effective_depreciation_rate) ^ ((1 : ℝ) / (1 - av)))) ∧
    analytic_steady_state cls =
      Except.ok ((sv / cls.effective_depreciation_rate) ^ ((1 : ℝ) / (1 - av))) := by
  have hav : (1 : ℝ) - av ≠ 0 := sub_ne_zero.mpr (ne_of_gt h1a)
  have hA : 0 < sv / cls.effective_depreciation_rate := div_pos hsv hedr
  have hlam : 0 < cls.effective_depreciation_rate * (1 - av) :=
    mul_pos hedr (by linarith)
  have hmul : Tendsto
      (fun ti : ℝ => cls.effective_depreciation_rate * (1 - av) * ti) atTop
      atTop := Tendsto.const_mul_atTop hlam tendsto_id
  have hexp : Tendsto
      (fun ti : ℝ =>
        Real.exp (-(cls.effective_depreciation_rate * (1 - av)) * ti)) atTop
      (nhds 0) := by
    have h := Real.tendsto_exp_neg_atTop_nhds_zero.comp hmul
    have heq : (fun ti : ℝ =>
        Real.exp (-(cls.effective_depreciation_rate * (1 - av)) * ti)) =
        (fun x : ℝ => Real.exp (-x)) ∘
          (fun ti : ℝ => cls.effective_depreciation_rate * (1 - av) * ti) := by
      funext ti
      simp [Function.comp, neg_mul]
    rw [heq]
    exact h
  have hinner : Tendsto (fun ti : ℝ =>
      sv / cls.effective_depreciation_rate *
        (1 - Real.exp (-(cls.effective_depreciation_rate * (1 - av)) * ti)) +
      k0 ^ ((1 : ℝ) - av) *
        Real.exp (-(cls.effective_depreciation_rate * (1 - av)) * ti)) atTop
      (nhds (sv / cls.effective_depreciation_rate)) := by
    have h : Tendsto (fun ti : ℝ =>
        sv / cls.effective_depreciation_rate *
          (1 - Real.exp (-(cls.effective_depreciation_rate * (1 - av)) * ti)) +
        k0 ^ ((1 : ℝ) - av) *
          Real.exp (-(cls.effective_depreciation_rate * (1 - av)) * ti)) atTop
        (nhds (sv / cls.effective_depreciation_rate * (1 - 0) +
          k0 ^ ((1 : ℝ) - av) * 0)) :=
      ((tendsto_const_nhds.sub hexp).const_mul
        (sv / cls.effective_depreciation_rate)).add
        (hexp.const_mul (k0 ^ ((1 : ℝ) - av)))
    have heq : sv / cls.effective_depreciation_rate * (1 - 0) +
        k0 ^ ((1 : ℝ) - av) * 0 = sv / cls.effective_depreciation_rate := by
      ring
    rw [heq] at h
    exact h
  have hcont : ContinuousAt (fun x : ℝ => x ^ ((1 : ℝ) / (1 - av)))
      (sv / cls.effective_depreciation_rate) :=
    Real.continuousAt_rpow_const _ _ (Or.inl (ne_of_gt hA))
  refine ⟨?_, analytic_steady_state_ok hs ha (ne_of_gt hedr) hav⟩
  have h := hcont.tendsto.comp hinner
  have heq : (fun ti : ℝ =>
      solowKt (sv / cls.effective_depreciation_rate) (1 / (1 - av)) av
        (cls.effective_depreciation_rate * (1 - av)) k0 ti) =
      (fun x : ℝ => x ^ ((1 : ℝ) / (1 - av))) ∘ (fun ti : ℝ =>
        sv / cls.effective_depreciation_rate *
          (1 - Real.exp (-(cls.effective_depreciation_rate * (1 - av)) * ti)) +
        k0 ^ ((1 : ℝ) - av) *
          Real.exp (-(cls.effective_depreciation_rate * (1 - av)) * ti)) := by
    funext ti
    simp [solowKt, Function.comp]
  rw [heq]
  exact h

/-- Witness for C7 at the concrete model with `k0 = 1`. -/
theorem claim7_witness :
    Tendsto (fun ti =>
        solowKt ((0.2 : ℝ) / concreteModel.effective_depreciation_rate)
          (1 / (1 - 0.33)) 0.33
          (concreteModel.effective_depreciation_rate * (1 - 0.33)) 1 ti) atTop
      (nhds (((0.2 : ℝ) / concreteModel.effective_depreciation_rate) ^
        ((1 : ℝ) / (1 - 0.33)))) ∧
    analytic_steady_state concreteModel =
      Except.ok (((0.2 : ℝ) / concreteModel.effective_depreciation_rate) ^
        ((1 : ℝ) / (1 - 0.33))) :=
  claim7_convergence_to_steady_state concreteModel 0.2 0.33 rfl rfl
    (by norm_num) (by norm_num) (by rw [concrete_edr]; norm_num) (by norm_num)
    1 (by norm_num)

end Solow
